import Mathlib

/-!
Verification development for the bank-statement extraction pipeline
(`src/bank_statement_analysis/app.py`).

The development shallowly embeds the core of the program:
the pydantic schema model (`AccountHolder`, `Transaction`, `BankStatement`),
the prompt/payload builder inside `process_bank_transactions`, and the
response handling of `process_bank_transactions` (lines 132-151), with the
outcome of the single HTTP call to the inference service modelled as an
explicit sum type of outcomes. Python exceptions are modelled explicitly as
an `Except` layer so that the placement of the `try`/`except` handlers in
the source is mirrored one-to-one.
-/

/-- Exact decimal number: `mantissa / 10 ^ shift`. Stands in for the Python
floats produced by `json.loads`; the concrete statements only need exact
decimal values, so no floating-point rounding is modelled. -/
structure NumVal where
  mantissa : Int
  shift : Nat
deriving DecidableEq

/-- A parsed JSON value, the shape of data produced by Python `json.loads`.
Objects keep their members in source order; Python dict semantics (later
duplicate keys win) are recovered by `lookupField` below taking the last
match. -/
inductive Json where
  | null
  | bool (b : Bool)
  | num (n : NumVal)
  | str (s : String)
  | arr (items : List Json)
  | obj (fields : List (String × Json))

/-- Last-match field lookup: models indexing a Python dict that was built
from the members in order, where a later duplicate key overwrites an
earlier one. -/
def lookupField (fs : List (String × Json)) (k : String) : Option Json :=
  match fs with
  | [] => none
  | (k2, v) :: rest =>
    match lookupField rest k with
    | some r => some r
    | none => if k2 == k then some v else none

/-- Tells whether a member list has a given key; models `k in d` on a
Python dict. -/
def containsField (fs : List (String × Json)) (k : String) : Bool :=
  fs.any (fun p => p.1 == k)

/-- The opening-brace character, written by code so that no brace literal
appears in the text. -/
def lbrace : Char := Char.ofNat 123

/-- The closing-brace character. -/
def rbrace : Char := Char.ofNat 125

/-- JSON whitespace test, as in Python `json.loads`. -/
def isJsonWs (c : Char) : Bool := c == ' ' || c == '\n' || c == '\t' || c == '\r'

/-- Skips JSON whitespace. -/
def skipWs : List Char → List Char
  | [] => []
  | c :: cs => if isJsonWs c then skipWs cs else c :: cs

/-- Boolean prefix test on character lists. -/
def startsWithChars : List Char → List Char → Bool
  | [], _ => true
  | _ :: _, [] => false
  | p :: ps, c :: cs => p == c && startsWithChars ps cs

/-- Table of the two-character JSON string escapes: the character written
after the backslash paired with the character it denotes. -/
def escapeTable : List (Char × Char) :=
  [('"', '"'), ('\\', '\\'), ('/', '/'), ('n', '\n'), ('t', '\t'),
   ('r', '\r'), ('b', Char.ofNat 8), ('f', Char.ofNat 12)]

/-- Decodes one character of a JSON string escape (the character after the
backslash). `\u` escapes are outside the fragment exercised here and make
the parse fail, as an explicit model limitation. -/
def unescapeChar (c : Char) : Option Char :=
  (escapeTable.find? (fun p => p.1 == c)).map Prod.snd

/-- Reads the body of a JSON string after the opening quote, up to and
including the closing quote; returns the decoded characters and the rest
of the input. -/
def parseStrChars : List Char → Option (List Char × List Char)
  | [] => none
  | c :: rest =>
    if c == '"' then some ([], rest)
    else if c == '\\' then
      match rest with
      | [] => none
      | e :: rest2 =>
        match unescapeChar e with
        | some u =>
          match parseStrChars rest2 with
          | some (l, r) => some (u :: l, r)
          | none => none
        | none => none
    else
      match parseStrChars rest with
      | some (l, r) => some (c :: l, r)
      | none => none

/-- Reads a JSON string body and packs it as a `String`. -/
def parseStrBody (cs : List Char) : Option (String × List Char) :=
  match parseStrChars cs with
  | some (l, r) => some (String.mk l, r)
  | none => none

/-- Greedily reads decimal digits, returning their values and the rest. -/
def lexDigits : List Char → List Nat × List Char
  | [] => ([], [])
  | c :: cs =>
    if c.isDigit then
      let (ds, rest) := lexDigits cs
      ((c.toNat - 48) :: ds, rest)
    else ([], c :: cs)

/-- Folds a digit list into the natural number it denotes. -/
def foldDigits (ds : List Nat) : Nat := ds.foldl (fun a d => 10 * a + d) 0

/-- Reads a JSON number (optional sign, integer part, optional fraction,
optional exponent) into an exact `NumVal`. -/
def parseNumChars (cs : List Char) : Option (NumVal × List Char) :=
  let signSplit : Bool × List Char :=
    match cs with
    | c :: rest => if c == '-' then (true, rest) else (false, cs)
    | [] => (false, [])
  let neg := signSplit.1
  match lexDigits signSplit.2 with
  | ([], _) => none
  | (d :: ds, cs2) =>
    let afterFrac : Option (List Nat × List Char) :=
      match cs2 with
      | c :: rest =>
        if c == '.' then
          match lexDigits rest with
          | ([], _) => none
          | (f :: fs2, cs3) => some (f :: fs2, cs3)
        else some ([], cs2)
      | [] => some ([], [])
    match afterFrac with
    | none => none
    | some (fracs, cs3) =>
      let afterExp : Option (Int × List Char) :=
        match cs3 with
        | c :: rest =>
          if c == 'e' || c == 'E' then
            let expSplit : Int × List Char :=
              match rest with
              | c2 :: r2 => if c2 == '-' then (-1, r2) else if c2 == '+' then (1, r2) else (1, rest)
              | [] => (1, [])
            match lexDigits expSplit.2 with
            | ([], _) => none
            | (e1 :: es, cs4) => some (expSplit.1 * (foldDigits (e1 :: es) : Int), cs4)
          else some (0, cs3)
        | [] => some (0, [])
      match afterExp with
      | none => none
      | some (expv, cs4) =>
        let mag : Int := (foldDigits (d :: ds) * 10 ^ fracs.length + foldDigits fracs : Nat)
        let mant : Int := if neg then -mag else mag
        let res : NumVal :=
          if 0 ≤ expv then ⟨mant * 10 ^ expv.toNat, fracs.length⟩
          else ⟨mant, fracs.length + (-expv).toNat⟩
        some (res, cs4)

/-- Parsing mode of the recursive descent: a whole value, the members of an
object (allowing an immediate closing brace), a mandatory next member, the
items of an array (allowing an immediate closing bracket), or a mandatory
next item. -/
inductive PMode where
  | value
  | members
  | membersNext
  | items
  | itemsNext

/-- Result of one `parseCore` call, matching the mode it was called in. -/
inductive POut where
  | v (j : Json)
  | fields (fs : List (String × Json))
  | elems (xs : List Json)

/-- Recursive-descent JSON reader, structurally recursive on a fuel
counter so that every equation reduces definitionally. -/
def parseCore : Nat → PMode → List Char → Option (POut × List Char)
  | 0, _, _ => none
  | Nat.succ fuel, PMode.value, cs0 =>
    let cs := skipWs cs0
    if startsWithChars ['t', 'r', 'u', 'e'] cs then some (POut.v (Json.bool true), cs.drop 4)
    else if startsWithChars ['f', 'a', 'l', 's', 'e'] cs then some (POut.v (Json.bool false), cs.drop 5)
    else if startsWithChars ['n', 'u', 'l', 'l'] cs then some (POut.v Json.null, cs.drop 4)
    else
      match cs with
      | [] => none
      | c :: rest =>
        if c == '"' then
          match parseStrBody rest with
          | some (s, rem) => some (POut.v (Json.str s), rem)
          | none => none
        else if c == lbrace then
          match parseCore fuel PMode.members rest with
          | some (POut.fields fs, rem) => some (POut.v (Json.obj fs), rem)
          | _ => none
        else if c == '[' then
          match parseCore fuel PMode.items rest with
          | some (POut.elems xs, rem) => some (POut.v (Json.arr xs), rem)
          | _ => none
        else if c == '-' || c.isDigit then
          match parseNumChars (c :: rest) with
          | some (n, rem) => some (POut.v (Json.num n), rem)
          | none => none
        else none
  | Nat.succ fuel, PMode.members, cs0 =>
    match skipWs cs0 with
    | [] => none
    | c :: rest =>
      if c == rbrace then some (POut.fields [], rest)
      else parseCore fuel PMode.membersNext (c :: rest)
  | Nat.succ fuel, PMode.membersNext, cs0 =>
    match skipWs cs0 with
    | [] => none
    | c :: rest =>
      if c == '"' then
        match parseStrBody rest with
        | some (k, rem1) =>
          match skipWs rem1 with
          | [] => none
          | c2 :: rem2 =>
            if c2 == ':' then
              match parseCore fuel PMode.value rem2 with
              | some (POut.v v, rem3) =>
                match skipWs rem3 with
                | [] => none
                | c3 :: rem4 =>
                  if c3 == ',' then
                    match parseCore fuel PMode.membersNext rem4 with
                    | some (POut.fields fs, rem5) => some (POut.fields ((k, v) :: fs), rem5)
                    | _ => none
                  else if c3 == rbrace then some (POut.fields [(k, v)], rem4)
                  else none
              | _ => none
            else none
        | none => none
      else none
  | Nat.succ fuel, PMode.items, cs0 =>
    match skipWs cs0 with
    | [] => none
    | c :: rest =>
      if c == ']' then some (POut.elems [], rest)
      else parseCore fuel PMode.itemsNext (c :: rest)
  | Nat.succ fuel, PMode.itemsNext, cs0 =>
    match parseCore fuel PMode.value cs0 with
    | some (POut.v v, rem1) =>
      match skipWs rem1 with
      | [] => none
      | c :: rem2 =>
        if c == ',' then
          match parseCore fuel PMode.itemsNext rem2 with
          | some (POut.elems xs, rem3) => some (POut.elems (v :: xs), rem3)
          | _ => none
        else if c == ']' then some (POut.elems [v], rem2)
        else none
    | _ => none

/-- Models Python `json.loads` on the JSON fragment this program exchanges:
parses one JSON document and requires the whole input to be consumed
(anything left over fails, as `json.loads` raises `Extra data`). Returns
`none` exactly when `json.loads` raises `json.JSONDecodeError`. -/
def Json.parse (s : String) : Option Json :=
  match parseCore (2 * s.data.length + 4) PMode.value s.data with
  | some (POut.v j, rest) => if (skipWs rest).isEmpty then some j else none
  | _ => none


/-! ### Schema model

The pydantic classes of `app.py` lines 16-30. Field validation follows
pydantic lax-mode semantics: `str` fields accept exactly strings, `float`
fields accept numbers and numeric strings (Scenario E's non-numeric
string is rejected). A validation error carries the name of the offending
field. Note that `process_bank_transactions` never invokes these
validators: the classes are only used to produce the JSON schema sent to
the inference service in the request's `format` field. -/

/-- Account holder, from the pydantic class `AccountHolder`. -/
structure AccountHolder where
  name : String
  account_number : String
deriving DecidableEq

/-- A transaction, from the pydantic class `Transaction`. The `type` field
is declared `str` in the source, so it is a plain `String` here. -/
structure Transaction where
  date : String
  amount : NumVal
  currency : String
  type : String
  description : String
  balance : NumVal
deriving DecidableEq

/-- A bank statement, from the pydantic class `BankStatement`. -/
structure BankStatement where
  account_holder : AccountHolder
  transactions : List Transaction
deriving DecidableEq

/-- Numeric-string coercion: Python float conversion accepts a numeric
string with optional surrounding whitespace. -/
def numFromStr (s : String) : Option NumVal :=
  match parseNumChars (skipWs s.data) with
  | some (n, rest) => if (skipWs rest).isEmpty then some n else none
  | none => none

/-- Required `str` field: present and a string, else an error naming the
field. -/
def reqStr (fs : List (String × Json)) (k : String) : Except String String :=
  match lookupField fs k with
  | some (Json.str s) => Except.ok s
  | some _ => Except.error k
  | none => Except.error k

/-- Required `float` field: present and a number or numeric string, else
an error naming the field. -/
def reqFloat (fs : List (String × Json)) (k : String) : Except String NumVal :=
  match lookupField fs k with
  | some (Json.num n) => Except.ok n
  | some (Json.str s) =>
    match numFromStr s with
    | some n => Except.ok n
    | none => Except.error k
  | some _ => Except.error k
  | none => Except.error k

/-- Pydantic-style construction of an `AccountHolder` from parsed JSON. -/
def AccountHolder.validate (j : Json) : Except String AccountHolder :=
  match j with
  | Json.obj fs =>
    match reqStr fs "name" with
    | Except.error e => Except.error e
    | Except.ok n =>
      match reqStr fs "account_number" with
      | Except.error e => Except.error e
      | Except.ok a => Except.ok ⟨n, a⟩
  | _ => Except.error "account_holder"

/-- Pydantic-style construction of a `Transaction` from parsed JSON. The
`type` field accepts any string, exactly as the source class declares it. -/
def Transaction.validate (j : Json) : Except String Transaction :=
  match j with
  | Json.obj fs =>
    match reqStr fs "date" with
    | Except.error e => Except.error e
    | Except.ok dateV =>
      match reqFloat fs "amount" with
      | Except.error e => Except.error e
      | Except.ok amountV =>
        match reqStr fs "currency" with
        | Except.error e => Except.error e
        | Except.ok currencyV =>
          match reqStr fs "type" with
          | Except.error e => Except.error e
          | Except.ok typeV =>
            match reqStr fs "description" with
            | Except.error e => Except.error e
            | Except.ok descV =>
              match reqFloat fs "balance" with
              | Except.error e => Except.error e
              | Except.ok balanceV =>
                Except.ok ⟨dateV, amountV, currencyV, typeV, descV, balanceV⟩
  | _ => Except.error "transaction"

/-- Validates each element of a transactions array in order. -/
def validateTxList : List Json → Except String (List Transaction)
  | [] => Except.ok []
  | j :: rest =>
    match Transaction.validate j with
    | Except.error e => Except.error e
    | Except.ok t =>
      match validateTxList rest with
      | Except.error e => Except.error e
      | Except.ok ts => Except.ok (t :: ts)

/-- Pydantic-style construction of a `BankStatement` from parsed JSON. -/
def BankStatement.validate (j : Json) : Except String BankStatement :=
  match j with
  | Json.obj fs =>
    match lookupField fs "account_holder" with
    | none => Except.error "account_holder"
    | some ah =>
      match AccountHolder.validate ah with
      | Except.error e => Except.error e
      | Except.ok holder =>
        match lookupField fs "transactions" with
        | none => Except.error "transactions"
        | some (Json.arr xs) =>
          match validateTxList xs with
          | Except.error e => Except.error e
          | Except.ok ts => Except.ok ⟨holder, ts⟩
        | some _ => Except.error "transactions"
  | _ => Except.error "statement"

/-- Reads a model response content value of the documented wire shape (an
object whose `transactions` member holds the statement) and validates the
inner statement against the schema model. -/
def statementOf (j : Json) : Except String BankStatement :=
  match j with
  | Json.obj fs =>
    match lookupField fs "transactions" with
    | some inner => BankStatement.validate inner
    | none => Except.error "transactions"
  | _ => Except.error "statement"

/-! ### Pipeline embedding

`process_bank_transactions` (lines 111-151). The single `requests.post`
call plus `raise_for_status` plus `response.json()` is modelled by a sum
type of call outcomes; Python exceptions are an explicit `Except` layer so
the handler placement of the source (an inner `try` around lines 139-141
catching only `json.JSONDecodeError`, and the outer `try` with handlers
for `Timeout`, `ConnectionError` and `Exception` in that order) is
mirrored exactly. -/

/-- A Python exception that can arise inside the outer `try` block. The
three decode constructors are distinguished by where they can be raised,
mirroring that handler scope, not exception class alone, decides which
`except` clause runs. -/
inductive PyExc where
  | timeout
  | connectionError
  | httpStatusError (msg : String)
  | bodyDecodeError (msg : String)
  | contentDecodeError (msg : String)
  | keyError (k : String)
  | typeError (msg : String)
  | other (msg : String)

/-- The string Python `str(e)` produces for each modelled exception; a
`KeyError` renders as its key in quotes. Only the constructors that can
reach the catch-all handler matter; `timeout` and `connectionError` are
intercepted earlier by their own handlers. -/
def pyExcStr : PyExc → String
  | PyExc.timeout => "timed out"
  | PyExc.connectionError => "connection error"
  | PyExc.httpStatusError m => m
  | PyExc.bodyDecodeError m => m
  | PyExc.contentDecodeError m => m
  | PyExc.keyError k => "\x27" ++ k ++ "\x27"
  | PyExc.typeError m => m
  | PyExc.other m => m

/-- Outcome of the one HTTP interaction with the inference service, the
external nondeterminism of `requests.post(url, json=payload, timeout=300)`
followed by `raise_for_status()` and `response.json()`:
timeout; unreachable endpoint; a response with a non-success status code
(4xx/5xx), carrying the message of the `HTTPError` that
`raise_for_status` raises; a transport-success whose body is not JSON,
carrying the decode-error message of `response.json()`; a
transport-success with JSON body; or any other exception during the call,
carrying its message. -/
inductive CallOutcome where
  | timeout
  | connectionError
  | httpError (msg : String)
  | bodyNotJson (msg : String)
  | success (body : Json)
  | otherFailure (msg : String)

/-- Lines 133-135: the request, status check and body decode, as an
exception-or-body computation. -/
def attemptRequest : CallOutcome → Except PyExc Json
  | CallOutcome.timeout => Except.error PyExc.timeout
  | CallOutcome.connectionError => Except.error PyExc.connectionError
  | CallOutcome.httpError m => Except.error (PyExc.httpStatusError m)
  | CallOutcome.bodyNotJson m => Except.error (PyExc.bodyDecodeError m)
  | CallOutcome.success body => Except.ok body
  | CallOutcome.otherFailure m => Except.error (PyExc.other m)

/-- Python membership test `"message" in response_data` on a decoded JSON
body: key membership for a dict, element equality for a list, substring
for a string, and a `TypeError` for the non-iterable values. -/
def containsSub (needle : List Char) : List Char → Bool
  | [] => needle.isEmpty
  | c :: cs => startsWithChars needle (c :: cs) || containsSub needle cs

/-- Python `k in j` for a decoded JSON value. -/
def containsKeyPy (j : Json) (k : String) : Except PyExc Bool :=
  match j with
  | Json.obj fs => Except.ok (containsField fs k)
  | Json.arr xs =>
    Except.ok (xs.any (fun x =>
      match x with
      | Json.str s => s == k
      | _ => false))
  | Json.str s => Except.ok (containsSub k.data s.data)
  | _ => Except.error (PyExc.typeError "argument of type is not iterable")

/-- Python subscript `j[k]` for a decoded JSON value: dict lookup raising
`KeyError` on a missing key, `TypeError` otherwise. -/
def subscriptPy (j : Json) (k : String) : Except PyExc Json :=
  match j with
  | Json.obj fs =>
    match lookupField fs k with
    | some v => Except.ok v
    | none => Except.error (PyExc.keyError k)
  | Json.str _ => Except.error (PyExc.typeError "string indices must be integers")
  | Json.arr _ => Except.error (PyExc.typeError "list indices must be integers or slices, not str")
  | _ => Except.error (PyExc.typeError "object is not subscriptable")

/-- The result dictionary of `process_bank_transactions`: either
`\x7b"data": ...\x7d` or `\x7b"error": ...\x7d`. -/
inductive PipelineResult where
  | data (j : Json)
  | error (msg : String)

/-- Tells whether a result is the successful data form. -/
def PipelineResult.isData : PipelineResult → Bool
  | PipelineResult.data _ => true
  | PipelineResult.error _ => false

/-- Tells whether a result is the error form. -/
def PipelineResult.isError : PipelineResult → Bool
  | PipelineResult.data _ => false
  | PipelineResult.error _ => true

/-- Lines 139-141, the body of the inner `try`:
`content = response_data["message"]["content"]` followed by
`json.loads(content)`; `json.loads` demands a string argument and raises
`json.JSONDecodeError` when it cannot parse. -/
def innerTryBody (response_data : Json) : Except PyExc PipelineResult :=
  match subscriptPy response_data "message" with
  | Except.error e => Except.error e
  | Except.ok msg =>
    match subscriptPy msg "content" with
    | Except.error e => Except.error e
    | Except.ok contentVal =>
      match contentVal with
      | Json.str content =>
        match Json.parse content with
        | some t => Except.ok (PipelineResult.data t)
        | none => Except.error (PyExc.contentDecodeError "Expecting value")
      | _ => Except.error (PyExc.typeError "the JSON object must be str, bytes or bytearray")

/-- Lines 137-145: the `"message" in response_data` check, the inner `try`
whose only handler catches `json.JSONDecodeError`, and the else branch for
a body without the expected field. Every other exception passes through to
the outer handlers. -/
def successBranch (response_data : Json) : Except PyExc PipelineResult :=
  match containsKeyPy response_data "message" with
  | Except.error e => Except.error e
  | Except.ok true =>
    match innerTryBody response_data with
    | Except.ok r => Except.ok r
    | Except.error (PyExc.contentDecodeError _) =>
      Except.ok (PipelineResult.error "Failed to parse model response as JSON")
    | Except.error e => Except.error e
  | Except.ok false =>
    Except.ok (PipelineResult.error "Unexpected response format from model")

/-- The whole outer `try` body of lines 133-145. -/
def tryBlock (o : CallOutcome) : Except PyExc PipelineResult :=
  match attemptRequest o with
  | Except.error e => Except.error e
  | Except.ok response_data => successBranch response_data

/-- Lines 132-151 of `app.py`: the outer `try` with its three handlers in
source order, `requests.exceptions.Timeout`,
`requests.exceptions.ConnectionError`, then the catch-all `Exception`
whose message interpolates `str(e)`. -/
def process_bank_transactions (o : CallOutcome) : PipelineResult :=
  match tryBlock o with
  | Except.ok r => r
  | Except.error PyExc.timeout => PipelineResult.error "Request timed out connecting to Ollama"
  | Except.error PyExc.connectionError => PipelineResult.error "Failed to connect to Ollama server"
  | Except.error e => PipelineResult.error ("Unexpected error: " ++ pyExcStr e)

/-- The response body shape the success path of the code expects: a JSON
object whose `message` member is an object whose `content` member is the
response text. Returns that text when the body has this shape. -/
def bodyContent (body : Json) : Option String :=
  match body with
  | Json.obj fs =>
    match lookupField fs "message" with
    | some (Json.obj ms) =>
      match lookupField ms "content" with
      | some (Json.str s) => some s
      | _ => none
    | _ => none
  | _ => none

/-- Convenience constructor for a minimal well-shaped response body with
the given content text. -/
def mkBody (content : String) : Json :=
  Json.obj [("message", Json.obj [("content", Json.str content)])]

/-- Recognizes parsed content of the documented wire shape whose inner
`transactions` array is empty (Scenario D). -/
def hasEmptyTransactions (j : Json) : Bool :=
  match j with
  | Json.obj fs =>
    match lookupField fs "transactions" with
    | some (Json.obj inner) =>
      match lookupField inner "transactions" with
      | some (Json.arr xs) => xs.isEmpty
      | _ => false
    | _ => false
  | _ => false

/-! ### Prompt builder

The fixed system prompt (lines 33-96) and the request payload construction
(lines 116-130). Brace characters inside the prompt text are written with
hex escapes. -/

/-- The module constant `SYSTEM_MESSAGE`, the fixed instruction template.
The triple-quoted Python literal starts and ends with a newline; it is
reassembled here line by line. -/
def SYSTEM_MESSAGE : String := String.intercalate "\n" [
  "",
  "You are an advanced financial document parser specializing in extracting structured data from bank statements. Your task is to analyze the provided bank statement and convert the unstructured transaction data into a structured JSON format.",
  "",
  "Key Requirements:",
  "1. Extract account holder details",
  "2. Parse all transactions accurately",
  "3. Standardize date formats",
  "4. Identify transaction types",
  "5. Clean and simplify transaction descriptions",
  "6. Handle multiple currencies",
  "7. Maintain accurate balance tracking",
  "",
  "Analyze the following bank statement and extract the required information:",
  "",
  "Output Format:",
  "Provide the extracted data in the following JSON structure:",
  "",
  "\x7b",
  "    \"transactions\": \x7b",
  "        \"account_holder\": \x7b",
  "            \"name\": \"Full Name\",",
  "            \"account_number\": \"Complete Account Number\"",
  "        \x7d,",
  "        \"transactions\": [",
  "            \x7b",
  "                \"date\": \"DD-MM-YYYY\",",
  "                \"amount\": float,",
  "                \"currency\": \"Currency Code\",",
  "                \"type\": \"CREDIT or DEBIT\",",
  "                \"description\": \"Cleaned Description\",",
  "                \"balance\": float",
  "            \x7d,",
  "            // ... more transactions",
  "        ]",
  "    \x7d",
  "\x7d",
  "",
  "Parsing Rules:",
  "1. Account Holder:",
  "   - Extract the full name as shown on the statement",
  "   - Capture the complete account number",
  "",
  "2. Transactions:",
  "   - Date: Convert all dates to DD-MM-YYYY format",
  "   - Amount: ",
  "     - Remove currency symbols and commas",
  "     - Convert to float",
  "   - Currency: Detect the currency types INR or USD",
  "   - Type:",
  "     - CREDIT for deposits or positive amounts",
  "     - DEBIT for withdrawals or negative amounts",
  "   - Description:",
  "     - Remove reference numbers, UPI IDs, and unnecessary banking terms",
  "     - Keep relevant information like merchant names, payment purposes, or recipient names",
  "   - Balance: Extract the closing balance for each transaction",
  "",
  "3. Special Considerations:",
  "   - Ignore any lines that are not actual transactions (e.g., headers, footers)",
  "   - Ensure all numerical values are properly converted to floats",
  "   - Maintain the chronological order of transactions",
  "",
  "Parse the statement meticulously, ensuring all transactions are captured accurately. The output should strictly adhere to the provided JSON structure and parsing rules.",
  "",
  ""]

/-- The value of `BankStatement.model_json_schema()`: the JSON schema
pydantic derives from the three model classes, sent as the `format`
constraint of the request. Note the `type` property is an unconstrained
string in this schema, with no enumeration. -/
def bankStatementSchema : Json :=
  Json.obj [
    ("$defs", Json.obj [
      ("AccountHolder", Json.obj [
        ("properties", Json.obj [
          ("name", Json.obj [("title", Json.str "Name"), ("type", Json.str "string")]),
          ("account_number", Json.obj [("title", Json.str "Account Number"), ("type", Json.str "string")])]),
        ("required", Json.arr [Json.str "name", Json.str "account_number"]),
        ("title", Json.str "AccountHolder"),
        ("type", Json.str "object")]),
      ("Transaction", Json.obj [
        ("properties", Json.obj [
          ("date", Json.obj [("title", Json.str "Date"), ("type", Json.str "string")]),
          ("amount", Json.obj [("title", Json.str "Amount"), ("type", Json.str "number")]),
          ("currency", Json.obj [("title", Json.str "Currency"), ("type", Json.str "string")]),
          ("type", Json.obj [("title", Json.str "Type"), ("type", Json.str "string")]),
          ("description", Json.obj [("title", Json.str "Description"), ("type", Json.str "string")]),
          ("balance", Json.obj [("title", Json.str "Balance"), ("type", Json.str "number")])]),
        ("required", Json.arr [Json.str "date", Json.str "amount", Json.str "currency",
          Json.str "type", Json.str "description", Json.str "balance"]),
        ("title", Json.str "Transaction"),
        ("type", Json.str "object")])]),
    ("properties", Json.obj [
      ("account_holder", Json.obj [("$ref", Json.str "#/$defs/AccountHolder")]),
      ("transactions", Json.obj [
        ("items", Json.obj [("$ref", Json.str "#/$defs/Transaction")]),
        ("title", Json.str "Transactions"),
        ("type", Json.str "array")])]),
    ("required", Json.arr [Json.str "account_holder", Json.str "transactions"]),
    ("title", Json.str "BankStatement"),
    ("type", Json.str "object")]

/-- One chat message of the request payload. -/
structure ChatMessage where
  role : String
  content : String
deriving DecidableEq

/-- The request payload of lines 116-130: model name, the two messages,
the schema constraint and the stream flag. -/
structure Payload where
  model : String
  messages : List ChatMessage
  format : Json
  stream : Bool

/-- Lines 116-130: the payload built from the document text. The f-string
interpolations of `SYSTEM_MESSAGE` and `text` are the identity on
strings, so the messages carry them verbatim. -/
def build_payload (text : String) : Payload :=
  { model := "phi4"
  , messages := [⟨"system", SYSTEM_MESSAGE⟩, ⟨"user", text⟩]
  , format := bankStatementSchema
  , stream := false }

/-! ### Concrete instances used by the witnesses and counterexamples -/

/-- Scenario A content: a full statement with one CREDIT transaction. -/
def scenarioAContent : String :=
  "\x7b\"transactions\":\x7b\"account_holder\":\x7b\"name\":\"Jane Doe\",\"account_number\":\"1234567890\"\x7d,\"transactions\":[\x7b\"date\":\"01-05-2024\",\"amount\":500.0,\"currency\":\"INR\",\"type\":\"CREDIT\",\"description\":\"Salary\",\"balance\":1500.0\x7d]\x7d\x7d"

/-- The JSON value Scenario A content parses to; `500.0` is the exact
decimal `5000 / 10 ^ 1` and `1500.0` is `15000 / 10 ^ 1`. -/
def scenarioAJson : Json :=
  Json.obj [("transactions", Json.obj [
    ("account_holder", Json.obj [
      ("name", Json.str "Jane Doe"),
      ("account_number", Json.str "1234567890")]),
    ("transactions", Json.arr [
      Json.obj [
        ("date", Json.str "01-05-2024"),
        ("amount", Json.num ⟨5000, 1⟩),
        ("currency", Json.str "INR"),
        ("type", Json.str "CREDIT"),
        ("description", Json.str "Salary"),
        ("balance", Json.num ⟨15000, 1⟩)]])])]

/-- The validated statement of Scenario A. -/
def scenarioAStatement : BankStatement :=
  ⟨⟨"Jane Doe", "1234567890"⟩,
    [⟨"01-05-2024", ⟨5000, 1⟩, "INR", "CREDIT", "Salary", ⟨15000, 1⟩⟩]⟩

/-- Scenario D content: a valid statement with an empty transactions
array. -/
def emptyTxContent : String :=
  "\x7b\"transactions\":\x7b\"account_holder\":\x7b\"name\":\"Jane Doe\",\"account_number\":\"1234567890\"\x7d,\"transactions\":[]\x7d\x7d"

/-- The JSON value the Scenario D content parses to. -/
def emptyTxJson : Json :=
  Json.obj [("transactions", Json.obj [
    ("account_holder", Json.obj [
      ("name", Json.str "Jane Doe"),
      ("account_number", Json.str "1234567890")]),
    ("transactions", Json.arr [])])]

/-- Content that parses as JSON but violates the schema in all three ways
named by the spec: no `account_holder`, a non-numeric `amount`, and a
`type` outside the enumeration. -/
def violatingContent : String :=
  "\x7b\"amount\":\"abc\",\"type\":\"TRANSFER\"\x7d"

/-- The JSON value the violating content parses to. -/
def violatingJson : Json :=
  Json.obj [("amount", Json.str "abc"), ("type", Json.str "TRANSFER")]

/-- A transaction object whose `type` member is the given string and whose
other members are all well formed. -/
def txObj (t : String) : Json :=
  Json.obj [
    ("date", Json.str "01-05-2024"),
    ("amount", Json.num ⟨5000, 1⟩),
    ("currency", Json.str "INR"),
    ("type", Json.str t),
    ("description", Json.str "Salary"),
    ("balance", Json.num ⟨15000, 1⟩)]

/-! ### Helper lemmas -/

/-- Sanity of the `json.loads` model on the grammar corners the program
exchanges: literals, numbers, strings, nesting, whitespace, trailing
garbage and truncated input. -/
theorem jsonParse_sanity :
    Json.parse "not valid json" = none ∧
    Json.parse "null" = some Json.null ∧
    Json.parse " [1, 2.5, \"a\"] " =
      some (Json.arr [Json.num ⟨1, 0⟩, Json.num ⟨25, 1⟩, Json.str "a"]) ∧
    Json.parse "\x7b\"a\": true, \"b\": [] \x7d" =
      some (Json.obj [("a", Json.bool true), ("b", Json.arr [])]) ∧
    Json.parse "\x7b\"a\": 1" = none ∧
    Json.parse "-1.5e2" = some (Json.num ⟨-1500, 1⟩) :=
  ⟨rfl, rfl, rfl, rfl, rfl, rfl⟩

/-- A key that `lookupField` finds is reported present by
`containsField`. -/
theorem containsField_of_lookup {fs : List (String × Json)} {k : String} {v : Json}
    (h : lookupField fs k = some v) : containsField fs k = true := by
  induction fs with
  | nil => simp [lookupField] at h
  | cons p rest ih =>
    obtain ⟨k2, v2⟩ := p
    simp only [lookupField] at h
    cases hr : lookupField rest k with
    | some r =>
      rw [hr] at h
      obtain rfl : r = v := Option.some.inj h
      have hrest := ih hr
      simp [containsField, List.any_cons] at hrest ⊢
      exact Or.inr hrest
    | none =>
      rw [hr] at h
      simp only [containsField, List.any_cons]
      by_cases hk : (k2 == k) = true
      · simp [hk]
      · simp [hk] at h

/-- A body whose `bodyContent` is defined is an object with a `message`
object member carrying a string `content` member. -/
theorem bodyContent_spec {body : Json} {content : String}
    (h : bodyContent body = some content) :
    ∃ fs ms, body = Json.obj fs ∧ lookupField fs "message" = some (Json.obj ms) ∧
      lookupField ms "content" = some (Json.str content) := by
  cases body with
  | null => simp [bodyContent] at h
  | bool b => simp [bodyContent] at h
  | num n => simp [bodyContent] at h
  | str s => simp [bodyContent] at h
  | arr xs => simp [bodyContent] at h
  | obj fs =>
    simp only [bodyContent] at h
    cases hm : lookupField fs "message" with
    | none => rw [hm] at h; simp at h
    | some mv =>
      rw [hm] at h
      cases mv with
      | null => simp at h
      | bool b => simp at h
      | num n => simp at h
      | str s => simp at h
      | arr xs => simp at h
      | obj ms =>
        simp only at h
        cases hc : lookupField ms "content" with
        | none => rw [hc] at h; simp at h
        | some cv =>
          rw [hc] at h
          cases cv with
          | null => simp at h
          | bool b => simp at h
          | num n => simp at h
          | arr xs => simp at h
          | obj fs2 => simp at h
          | str s =>
            simp only [Option.some.injEq] at h
            subst h
            exact ⟨fs, ms, rfl, hm, hc⟩

/-- Computation of the success path: when the body has the expected
`message`/`content` shape, the pipeline result is decided entirely by
whether the content parses as JSON. -/
theorem process_success_content {fs ms : List (String × Json)} {content : String}
    (hm : lookupField fs "message" = some (Json.obj ms))
    (hc : lookupField ms "content" = some (Json.str content)) :
    process_bank_transactions (CallOutcome.success (Json.obj fs)) =
      (match Json.parse content with
        | some t => PipelineResult.data t
        | none => PipelineResult.error "Failed to parse model response as JSON") := by
  have hkey : containsField fs "message" = true := containsField_of_lookup hm
  cases hp : Json.parse content with
  | some t =>
    simp [process_bank_transactions, tryBlock, attemptRequest, successBranch,
      containsKeyPy, hkey, innerTryBody, subscriptPy, hm, hc, hp]
  | none =>
    simp [process_bank_transactions, tryBlock, attemptRequest, successBranch,
      containsKeyPy, hkey, innerTryBody, subscriptPy, hm, hc, hp]

/-- No message of the catch-all handler, which always begins with the
eighteen characters of the prefix `Unexpected error: `, can equal a string
whose first eighteen characters differ from that prefix. -/
theorem catchAll_msg_ne {m t : String}
    (hne : t.data.take 18 ≠ "Unexpected error: ".data) :
    "Unexpected error: " ++ m ≠ t := by
  intro h
  apply hne
  obtain ⟨l⟩ := m
  have h2 := congrArg (fun s => List.take 18 s.data) h
  simp only at h2
  rw [← h2]
  have h3 : ("Unexpected error: " ++ String.mk l).data = "Unexpected error: ".data ++ l := rfl
  rw [h3]
  rw [List.take_append_of_le_length (by decide)]
  decide

/-! ### Claim theorems -/

/-- C1 counterexample: the violating content is valid JSON that the schema
model rejects (naming the missing `account_holder`), yet
`process_bank_transactions` returns it as a successful data result, not a
schema-violation error: the pipeline never runs schema validation. -/
theorem schema_violating_content_returns_data :
    Json.parse violatingContent = some violatingJson ∧
    BankStatement.validate violatingJson = Except.error "account_holder" ∧
    process_bank_transactions (CallOutcome.success (mkBody violatingContent)) =
        PipelineResult.data violatingJson ∧
    (process_bank_transactions (CallOutcome.success (mkBody violatingContent))).isData = true :=
  ⟨rfl, rfl, rfl, rfl⟩

/-- C1 amended: any response content that parses as JSON is returned as a
successful data result, with no schema validation of the parsed value. -/
theorem no_schema_validation_on_parsed_content {body : Json} {content : String} {j : Json}
    (hb : bodyContent body = some content) (hp : Json.parse content = some j) :
    process_bank_transactions (CallOutcome.success body) = PipelineResult.data j := by
  obtain ⟨fs, ms, rfl, hm, hc⟩ := bodyContent_spec hb
  have h := process_success_content hm hc
  rw [hp] at h
  exact h

/-- C1 witness: the amended theorem applied to the schema-violating
content. -/
theorem no_schema_validation_witness :
    bodyContent (mkBody violatingContent) = some violatingContent ∧
    Json.parse violatingContent = some violatingJson ∧
    process_bank_transactions (CallOutcome.success (mkBody violatingContent)) =
      PipelineResult.data violatingJson :=
  ⟨rfl, rfl, no_schema_validation_on_parsed_content rfl rfl⟩

/-- C2: content that fails to parse as JSON yields exactly the parse-error
result, never a data result, and the parse-error message differs from both
transport-error messages. -/
theorem parse_failure_returns_parse_error {body : Json} {content : String}
    (hb : bodyContent body = some content) (hp : Json.parse content = none) :
    process_bank_transactions (CallOutcome.success body) =
        PipelineResult.error "Failed to parse model response as JSON" ∧
      (process_bank_transactions (CallOutcome.success body)).isData = false ∧
      "Failed to parse model response as JSON" ≠ "Request timed out connecting to Ollama" ∧
      "Failed to parse model response as JSON" ≠ "Failed to connect to Ollama server" := by
  obtain ⟨fs, ms, rfl, hm, hc⟩ := bodyContent_spec hb
  have h := process_success_content hm hc
  rw [hp] at h
  exact ⟨h, by rw [h]; rfl, by decide, by decide⟩

/-- C2 witness: Scenario C, content `not valid json`. -/
theorem parse_failure_witness :
    bodyContent (mkBody "not valid json") = some "not valid json" ∧
    Json.parse "not valid json" = none ∧
    process_bank_transactions (CallOutcome.success (mkBody "not valid json")) =
        PipelineResult.error "Failed to parse model response as JSON" ∧
    (process_bank_transactions (CallOutcome.success (mkBody "not valid json"))).isData = false :=
  ⟨rfl, rfl,
    (@parse_failure_returns_parse_error (mkBody "not valid json") "not valid json" rfl rfl).1,
    (@parse_failure_returns_parse_error (mkBody "not valid json") "not valid json" rfl rfl).2.1⟩

/-- C3: for every outcome of the inference call, the pipeline returns a
structured result, either a data result or an error result; the explicit
exception layer of the embedding is fully discharged by the handlers, so
no exception propagates past the function boundary. -/
theorem pipeline_total_structured_result (o : CallOutcome) :
    (∃ j, process_bank_transactions o = PipelineResult.data j) ∨
    (∃ m, process_bank_transactions o = PipelineResult.error m) := by
  cases h : process_bank_transactions o with
  | data j => exact Or.inl ⟨j, rfl⟩
  | error m => exact Or.inr ⟨m, rfl⟩

/-- C4 counterexample: a transport-successful body that lacks the expected
content field (its `message` member has no `content`) does not produce the
malformed-response classification; the `KeyError` from the content lookup
reaches the catch-all handler instead. -/
theorem message_without_content_hits_catch_all :
    process_bank_transactions (CallOutcome.success (Json.obj [("message", Json.obj [])])) =
        PipelineResult.error "Unexpected error: \x27content\x27" ∧
      process_bank_transactions (CallOutcome.success (Json.obj [("message", Json.obj [])])) ≠
        PipelineResult.error "Unexpected response format from model" := by
  refine ⟨rfl, ?_⟩
  intro h
  have h0 : PipelineResult.error "Unexpected error: \x27content\x27" =
      PipelineResult.error "Unexpected response format from model" :=
    Eq.trans (by rfl) h
  exact absurd (PipelineResult.error.inj h0) (by decide)

/-- C4 amended: a transport-successful body without the `message` key
returns the malformed-response result, whose message differs from both
transport-error messages; a body with `message` but without `content`
falls to the catch-all handler instead. -/
theorem missing_message_returns_format_error {fs : List (String × Json)}
    (h : containsField fs "message" = false) :
    process_bank_transactions (CallOutcome.success (Json.obj fs)) =
        PipelineResult.error "Unexpected response format from model" ∧
      "Unexpected response format from model" ≠ "Request timed out connecting to Ollama" ∧
      "Unexpected response format from model" ≠ "Failed to connect to Ollama server" := by
  refine ⟨?_, by decide, by decide⟩
  simp [process_bank_transactions, tryBlock, attemptRequest, successBranch, containsKeyPy, h]

/-- C4 witness: a body with no `message` key. -/
theorem missing_message_witness :
    containsField [("foo", Json.null)] "message" = false ∧
    process_bank_transactions (CallOutcome.success (Json.obj [("foo", Json.null)])) =
      PipelineResult.error "Unexpected response format from model" :=
  ⟨rfl, (@missing_message_returns_format_error [("foo", Json.null)] rfl).1⟩

/-- C5 counterexample: constructing a `Transaction` whose `type` is
`TRANSFER`, a value outside the two-value enumeration, succeeds; the
source declares `type: str`, so construction is not rejected. -/
theorem transaction_type_not_restricted :
    Transaction.validate (txObj "TRANSFER") =
        Except.ok ⟨"01-05-2024", ⟨5000, 1⟩, "INR", "TRANSFER", "Salary", ⟨15000, 1⟩⟩ ∧
      "TRANSFER" ≠ "CREDIT" ∧ "TRANSFER" ≠ "DEBIT" :=
  ⟨rfl, by decide, by decide⟩

/-- C5 amended: the `type` field of `Transaction` is a plain string and
construction accepts every string value for it; the CREDIT/DEBIT wording
lives only in the prompt text, not in the schema model. -/
theorem transaction_type_accepts_any_string (t : String) :
    Transaction.validate (txObj t) =
      Except.ok ⟨"01-05-2024", ⟨5000, 1⟩, "INR", t, "Salary", ⟨15000, 1⟩⟩ := rfl

/-- C6: content that parses with an empty transactions array is returned
as a successful data result, which is not an error result. -/
theorem empty_transactions_is_valid_result {body : Json} {content : String} {j : Json}
    (hb : bodyContent body = some content) (hp : Json.parse content = some j)
    (he : hasEmptyTransactions j = true) :
    process_bank_transactions (CallOutcome.success body) = PipelineResult.data j ∧
      (process_bank_transactions (CallOutcome.success body)).isError = false := by
  obtain ⟨fs, ms, rfl, hm, hc⟩ := bodyContent_spec hb
  have h := process_success_content hm hc
  rw [hp] at h
  exact ⟨h, by rw [h]; rfl⟩

set_option maxRecDepth 8192 in
/-- C6 witness: Scenario D, a valid statement whose transactions array is
empty. -/
theorem empty_transactions_witness :
    bodyContent (mkBody emptyTxContent) = some emptyTxContent ∧
    Json.parse emptyTxContent = some emptyTxJson ∧
    hasEmptyTransactions emptyTxJson = true ∧
    process_bank_transactions (CallOutcome.success (mkBody emptyTxContent)) =
        PipelineResult.data emptyTxJson ∧
    (process_bank_transactions (CallOutcome.success (mkBody emptyTxContent))).isError = false := by
  refine ⟨rfl, rfl, rfl, ?_, ?_⟩
  · exact (@empty_transactions_is_valid_result (mkBody emptyTxContent) emptyTxContent
      emptyTxJson rfl rfl rfl).1
  · exact (@empty_transactions_is_valid_result (mkBody emptyTxContent) emptyTxContent
      emptyTxJson rfl rfl rfl).2

/-- C7: the payload builder is a pure function of the document text: equal
texts give equal payloads, and the model name, system message, schema
constraint and stream flag of the payload are the fixed constants of the
source. -/
theorem build_payload_deterministic (t1 t2 : String) (h : t1 = t2) :
    build_payload t1 = build_payload t2 ∧
      (build_payload t1).model = "phi4" ∧
      (build_payload t1).messages = [⟨"system", SYSTEM_MESSAGE⟩, ⟨"user", t1⟩] ∧
      (build_payload t1).format = bankStatementSchema ∧
      (build_payload t1).stream = false := by
  subst h
  exact ⟨rfl, rfl, rfl, rfl, rfl⟩

/-- C7 witness: the determinism theorem applied at a concrete document
text. -/
theorem build_payload_deterministic_witness :
    build_payload "statement text" = build_payload "statement text" ∧
      (build_payload "statement text").model = "phi4" ∧
      (build_payload "statement text").messages =
        [⟨"system", SYSTEM_MESSAGE⟩, ⟨"user", "statement text"⟩] ∧
      (build_payload "statement text").format = bankStatementSchema ∧
      (build_payload "statement text").stream = false :=
  build_payload_deterministic "statement text" "statement text" rfl

/-- C8: a timeout of the inference service yields exactly the timeout
error result and no data result. -/
theorem timeout_returns_timeout_error :
    process_bank_transactions CallOutcome.timeout =
        PipelineResult.error "Request timed out connecting to Ollama" ∧
      (process_bank_transactions CallOutcome.timeout).isData = false :=
  ⟨rfl, rfl⟩

/-- C9: when the content parses as JSON and its inner statement validates
against the schema model, the pipeline returns exactly the parsed input as
its data result (round-trip: the returned data is the parsed input
unchanged). -/
theorem valid_content_round_trip {body : Json} {content : String} {j : Json} {bs : BankStatement}
    (hb : bodyContent body = some content) (hp : Json.parse content = some j)
    (hv : statementOf j = Except.ok bs) :
    process_bank_transactions (CallOutcome.success body) = PipelineResult.data j ∧
      (process_bank_transactions (CallOutcome.success body)).isData = true := by
  obtain ⟨fs, ms, rfl, hm, hc⟩ := bodyContent_spec hb
  have h := process_success_content hm hc
  rw [hp] at h
  exact ⟨h, by rw [h]; rfl⟩

set_option maxRecDepth 8192 in
/-- C9 witness: Scenario A, one CREDIT transaction with balance 1500.0
(the exact decimal `15000 / 10 ^ 1`). -/
theorem valid_content_round_trip_witness :
    Json.parse scenarioAContent = some scenarioAJson ∧
    statementOf scenarioAJson = Except.ok scenarioAStatement ∧
    scenarioAStatement.transactions.length = 1 ∧
    scenarioAStatement.transactions.map Transaction.type = ["CREDIT"] ∧
    scenarioAStatement.transactions.map Transaction.balance = [⟨15000, 1⟩] ∧
    process_bank_transactions (CallOutcome.success (mkBody scenarioAContent)) =
      PipelineResult.data scenarioAJson := by
  refine ⟨rfl, rfl, rfl, rfl, rfl, ?_⟩
  exact (@valid_content_round_trip (mkBody scenarioAContent) scenarioAContent
    scenarioAJson scenarioAStatement rfl rfl rfl).1

/-- C10: a non-success HTTP status makes `raise_for_status` raise, which
the catch-all handler converts to the generic unexpected-error result,
distinct from the timeout, connection-failure and malformed-response
results, and no exception escapes. -/
theorem http_error_hits_catch_all (m : String) :
    process_bank_transactions (CallOutcome.httpError m) =
        PipelineResult.error ("Unexpected error: " ++ m) ∧
      (process_bank_transactions (CallOutcome.httpError m)).isData = false ∧
      process_bank_transactions (CallOutcome.httpError m) ≠
        PipelineResult.error "Request timed out connecting to Ollama" ∧
      process_bank_transactions (CallOutcome.httpError m) ≠
        PipelineResult.error "Failed to connect to Ollama server" ∧
      process_bank_transactions (CallOutcome.httpError m) ≠
        PipelineResult.error "Unexpected response format from model" := by
  refine ⟨rfl, rfl, ?_, ?_, ?_⟩ <;>
  · intro h
    exact catchAll_msg_ne (by decide) (PipelineResult.error.inj h)
